import Mathlib

/-!
Shallow embedding of the music-catalog manager (files `Banco_Dados.py`,
`main.py`, `tocador.py`).

The store (`BancoDeDadosMusica`) keeps three SQLite tables: `artistas`,
`generos` and `musicas`.  We embed a database state as three lists of rows
plus the AUTOINCREMENT counters (SQLite's `lastrowid` for an
`INTEGER PRIMARY KEY AUTOINCREMENT` column is one more than the largest id
ever used, never reused after deletes).

Two facts about the concrete SQLite engine are part of the embedding and
are documented where they matter:
* `conectar` never executes `PRAGMA foreign_keys = ON`, and SQLite keeps
  foreign-key enforcement OFF by default, so the `FOREIGN KEY` clauses of
  `criar_tabelas` are declarative only: inserts and updates with dangling
  `artista_id` / `genero_id` succeed.
* `LIKE` is case-insensitive for the ASCII range only, and `%` / `_` in the
  pattern are wildcards; `ORDER BY` on TEXT columns compares bytewise
  (which on UTF-8 agrees with code-point order, i.e. with Lean's `String`
  order).
-/

/-- A row of the `artistas` table (`id INTEGER PRIMARY KEY AUTOINCREMENT`,
`nome TEXT NOT NULL UNIQUE`). -/
structure Artista where
  id : Nat
  nome : String
deriving DecidableEq

/-- A row of the `generos` table, same shape as `artistas`. -/
structure Genero where
  id : Nat
  nome : String
deriving DecidableEq

/-- A row of the `musicas` table (`id` PK autoincrement, `artista_id`,
`titulo`, `url UNIQUE`, `genero_id`). -/
structure Musica where
  id : Nat
  artista_id : Nat
  titulo : String
  url : String
  genero_id : Nat
deriving DecidableEq

/-- The persistent state owned by `BancoDeDadosMusica`: the three tables
and the next AUTOINCREMENT value of each. -/
structure DB where
  artistas : List Artista
  generos : List Genero
  musicas : List Musica
  prox_artista : Nat
  prox_genero : Nat
  prox_musica : Nat
deriving DecidableEq

/-- The state right after `criar_tabelas` on a fresh file: three empty
tables; AUTOINCREMENT starts at 1. -/
def dbVazio : DB := ⟨[], [], [], 1, 1, 1⟩

/-- `adicionar_artista`: `INSERT INTO artistas (nome) VALUES (?)`; on
`IntegrityError` (the `nome` UNIQUE constraint, the only one a Python
`str` argument can violate) it selects and returns the existing id.
So: if a row with this `nome` exists its id is returned and the state is
unchanged, otherwise a fresh row is appended and its new id returned. -/
def adicionar_artista (st : DB) (nome : String) : Option Nat × DB :=
  match st.artistas.find? (fun a => a.nome = nome) with
  | some a => (some a.id, st)
  | none =>
      (some st.prox_artista,
       { st with artistas := st.artistas ++ [⟨st.prox_artista, nome⟩],
                 prox_artista := st.prox_artista + 1 })

/-- `adicionar_genero`: identical get-or-create on the `generos` table. -/
def adicionar_genero (st : DB) (nome : String) : Option Nat × DB :=
  match st.generos.find? (fun g => g.nome = nome) with
  | some g => (some g.id, st)
  | none =>
      (some st.prox_genero,
       { st with generos := st.generos ++ [⟨st.prox_genero, nome⟩],
                 prox_genero := st.prox_genero + 1 })

/-- `adicionar_musica`: `INSERT INTO musicas (artista_id, titulo, url,
genero_id) VALUES (?, ?, ?, ?)`; any `IntegrityError` is caught, rolled
back and reported as `None`.  With foreign keys unenforced (no
`PRAGMA foreign_keys = ON` in `conectar`) the only constraint a Python
call can violate is `url UNIQUE`, so the insert fails exactly when some
row already has this `url` — a dangling `artista_id` or `genero_id` is
accepted. -/
def adicionar_musica (st : DB) (artista_id : Nat) (titulo url : String)
    (genero_id : Nat) : Option Nat × DB :=
  if st.musicas.any (fun m => m.url = url) then
    (none, st)
  else
    (some st.prox_musica,
     { st with
         musicas := st.musicas ++ [⟨st.prox_musica, artista_id, titulo, url, genero_id⟩],
         prox_musica := st.prox_musica + 1 })

/-- A denormalized record: `SELECT m.*, a.nome as artista_nome, g.nome as
genero_nome FROM musicas m JOIN artistas a ... JOIN generos g ...`. -/
structure MusicaDen where
  id : Nat
  artista_id : Nat
  titulo : String
  url : String
  genero_id : Nat
  artista_nome : String
  genero_nome : String
deriving DecidableEq

/-- The inner join of one `musicas` row with `artistas` and `generos`;
`none` when either foreign key is dangling (an inner join drops the row). -/
def denorm1 (st : DB) (m : Musica) : Option MusicaDen :=
  (st.artistas.find? (fun a => a.id = m.artista_id)).bind fun a =>
    (st.generos.find? (fun g => g.id = m.genero_id)).map fun g =>
      ⟨m.id, m.artista_id, m.titulo, m.url, m.genero_id, a.nome, g.nome⟩

/-- The full three-way inner join, in table order (before any `ORDER BY`). -/
def denormAll (st : DB) : List MusicaDen :=
  st.musicas.filterMap (denorm1 st)

/-- The `ORDER BY a.nome, m.titulo` key order on denormalized records;
TEXT comparison is bytewise in SQLite, which on UTF-8 agrees with the
lexicographic order on the code-point lists `String.data`. -/
def denLe (x y : MusicaDen) : Prop :=
  x.artista_nome.data < y.artista_nome.data ∨
    (x.artista_nome = y.artista_nome ∧ x.titulo.data ≤ y.titulo.data)

instance : DecidableRel denLe := fun x y => by
  unfold denLe; infer_instance

/-- The `ORDER BY m.titulo` key order on denormalized records. -/
def tituloLe (x y : MusicaDen) : Prop := x.titulo.data ≤ y.titulo.data

instance : DecidableRel tituloLe := fun x y => by
  unfold tituloLe; infer_instance

/-- `obter_musica_por_id`: the denormalized record of the row with this
id, or `None` when there is no such row or its join partners are missing. -/
def obter_musica_por_id (st : DB) (musica_id : Nat) : Option MusicaDen :=
  (st.musicas.find? (fun m => m.id = musica_id)).bind (denorm1 st)

/-- `obter_musica_por_url`: like `obter_musica_por_id` keyed on `url`. -/
def obter_musica_por_url (st : DB) (url : String) : Option MusicaDen :=
  (st.musicas.find? (fun m => m.url = url)).bind (denorm1 st)

/-- `obter_todas_musicas`: the whole join `ORDER BY a.nome, m.titulo`. -/
def obter_todas_musicas (st : DB) : List MusicaDen :=
  List.insertionSort denLe (denormAll st)

/-- `obter_musicas_por_artista`: the join restricted by
`WHERE m.artista_id = ?`, `ORDER BY m.titulo`. -/
def obter_musicas_por_artista (st : DB) (artista_id : Nat) : List MusicaDen :=
  List.insertionSort tituloLe
    ((st.musicas.filter (fun m => m.artista_id = artista_id)).filterMap
      (denorm1 st))

/-- `obter_musicas_por_genero`: the join restricted by
`WHERE m.genero_id = ?`, `ORDER BY m.titulo`. -/
def obter_musicas_por_genero (st : DB) (genero_id : Nat) : List MusicaDen :=
  List.insertionSort tituloLe
    ((st.musicas.filter (fun m => m.genero_id = genero_id)).filterMap
      (denorm1 st))

/-- Python truthiness of an optional string argument: `None` and `""` are
falsy (`if titulo:`). -/
def truthyStr : Option String → Bool
  | none => false
  | some s => !(s = "")

/-- Python truthiness of an optional integer argument: `None` and `0` are
falsy (`if artista_id:`). -/
def truthyNat : Option Nat → Bool
  | none => false
  | some n => !(n = 0)

/-- The row produced by applying the truthy fields of `atualizar_musica`
to one matched row (`UPDATE musicas SET ... WHERE id = ?`). -/
def aplicarCampos (titulo url : Option String) (artista_id genero_id : Option Nat)
    (m : Musica) : Musica :=
  { m with
    titulo := if truthyStr titulo then titulo.getD m.titulo else m.titulo,
    url := if truthyStr url then url.getD m.url else m.url,
    artista_id := if truthyNat artista_id then artista_id.getD m.artista_id
                  else m.artista_id,
    genero_id := if truthyNat genero_id then genero_id.getD m.genero_id
                 else m.genero_id }

/-- `atualizar_musica`: builds `UPDATE musicas SET f1 = ?, ... WHERE id = ?`
from the truthy fields only; with no truthy field it returns `False`
without touching the store.  Executing the update can only violate the
`url UNIQUE` constraint (foreign keys are unenforced), namely when `url`
is among the set fields, a row matches the id, and a different row already
holds the new url; the `except sqlite3.Error` handler then rolls back and
returns `False`.  Otherwise it returns `rowcount > 0`, i.e. whether some
row matched the id. -/
def atualizar_musica (st : DB) (musica_id : Nat)
    (titulo url : Option String) (artista_id genero_id : Option Nat) :
    Bool × DB :=
  if !(truthyStr titulo) && !(truthyStr url) && !(truthyNat artista_id)
      && !(truthyNat genero_id) then
    (false, st)
  else if truthyStr url ∧ st.musicas.any (fun m => m.id = musica_id) ∧
      st.musicas.any (fun m => ¬(m.id = musica_id) ∧ m.url = url.getD "") then
    (false, st)
  else
    (st.musicas.any (fun m => m.id = musica_id),
     { st with musicas := st.musicas.map (fun m =>
         if m.id = musica_id then aplicarCampos titulo url artista_id genero_id m
         else m) })

/-- `deletar_musica`: `DELETE FROM musicas WHERE id = ?`; returns
`rowcount > 0`. -/
def deletar_musica (st : DB) (musica_id : Nat) : Bool × DB :=
  (st.musicas.any (fun m => m.id = musica_id),
   { st with musicas := st.musicas.filter (fun m => ¬(m.id = musica_id)) })

/-- `obter_estatisticas`: the three row counts. -/
def obter_estatisticas (st : DB) : Nat × Nat × Nat :=
  (st.artistas.length, st.generos.length, st.musicas.length)

/-- SQLite's ASCII-only case folding used by `LIKE` (and `Char.toLower`):
uppercase A–Z map to a–z, everything else is untouched. -/
def dobraChar (c : Char) : Char :=
  if 65 ≤ c.toNat ∧ c.toNat ≤ 90 then Char.ofNat (c.toNat + 32) else c

/-- A string as its case-folded character list. -/
def dobra (s : String) : List Char := s.data.map dobraChar

/-- All suffixes of a character list (including itself and `[]`). -/
def sufixos : List Char → List (List Char)
  | [] => [[]]
  | c :: cs => (c :: cs) :: sufixos cs

/-- The SQLite `LIKE` matcher on case-folded character lists: `%` matches
any sequence, `_` any single character, anything else itself; the whole
string must be consumed. -/
def likeMatch : List Char → List Char → Bool
  | [], s => s.isEmpty
  | p :: ps, s =>
      if p = '%' then (sufixos s).any (fun s1 => likeMatch ps s1)
      else
        match s with
        | [] => false
        | c :: cs => (p = '_' || p = c) && likeMatch ps cs

/-- The WHERE clause of `buscar_musicas`: `m.titulo LIKE '%termo%'` —
both sides folded, the two extra `%` around the verbatim term. -/
def likeTermo (termo s : String) : Bool :=
  likeMatch ('%' :: (dobra termo ++ ['%'])) (dobra s)

/-- `buscar_musicas`: the join filtered by
`WHERE m.titulo LIKE '%termo%' OR a.nome LIKE '%termo%'`,
`ORDER BY a.nome, m.titulo`. -/
def buscar_musicas (st : DB) (termo : String) : List MusicaDen :=
  List.insertionSort denLe
    ((denormAll st).filter (fun r =>
      likeTermo termo r.titulo || likeTermo termo r.artista_nome))

/-- Does a character list start with the given pattern list (plain
characters, no wildcards)? -/
def comecaCom : List Char → List Char → Bool
  | [], _ => true
  | _ :: _, [] => false
  | p :: ps, c :: cs => p = c && comecaCom ps cs

/-- Does a character list contain the pattern as a contiguous sublist? -/
def contemSub : List Char → List Char → Bool
  | pat, [] => comecaCom pat []
  | pat, c :: cs => comecaCom pat (c :: cs) || contemSub pat cs

/-- The spec-side predicate of the search claim, written from the spec's
words: the term occurs in the string as a case-insensitive substring. -/
def contemCI (termo s : String) : Bool := contemSub (dobra termo) (dobra s)

/-- A character that is not a `LIKE` wildcard. -/
def semCuringa (c : Char) : Bool := !(c = '%') && !(c = '_')

/-!
The player side (`main.py`).  The `Musica` dataclass of `main.py` carries
the track fields plus optional denormalized names; playback order and
multiplicity are what the claims are about, so we embed the dataclass as
is and record playback as a trace of events.
-/

/-- The `Musica` dataclass of `main.py`. -/
structure MusicaObj where
  id : Nat
  titulo : String
  url : String
  artista_id : Nat
  genero_id : Nat
  artista_nome : Option String
  genero_nome : Option String
deriving DecidableEq

/-- Observable events of a `Player` run: the "Playlist vazia!" message,
one display line per playlist entry (`exibir_playlist`), and one external
playback invocation per track (`Musica.tocar`, which calls
`tocador.tocar` on the url). -/
inductive Evento where
  | playlistVazia : Evento
  | exibe (indice : Nat) (m : MusicaObj) : Evento
  | reproduz (m : MusicaObj) : Evento
deriving DecidableEq

/-- The `Player` state: video flag, volume and the current playlist. -/
structure PlayerState where
  video : Bool
  volume : Nat
  playlist_atual : List MusicaObj
deriving DecidableEq

/-- `Player.criar_playlist`: replace the current playlist. -/
def criar_playlist (p : PlayerState) (musicas : List MusicaObj) : PlayerState :=
  { p with playlist_atual := musicas }

/-- `Player.exibir_playlist`: one numbered display line per entry,
1-based. -/
def exibir_playlist (p : PlayerState) : List Evento :=
  (List.range p.playlist_atual.length).zipWith
    (fun i m => Evento.exibe (i + 1) m) p.playlist_atual

/-- `Player.tocar_playlist`: on an empty playlist print "Playlist vazia!"
and return; otherwise display the playlist and then play each track in
order, one external invocation per track. -/
def tocar_playlist (p : PlayerState) : List Evento :=
  if p.playlist_atual = [] then [Evento.playlistVazia]
  else exibir_playlist p ++ p.playlist_atual.map Evento.reproduz

/-- `Player.tocar_musicas(musicas, aleatorio)`: when `aleatorio`,
`random.shuffle` permutes the list in place (modelled by the oracle
`embaralha`, an arbitrary function whose output is assumed a permutation
of its input); then `criar_playlist` + `tocar_playlist`. -/
def tocar_musicas (embaralha : List MusicaObj → List MusicaObj)
    (p : PlayerState) (musicas : List MusicaObj) (aleatorio : Bool) :
    PlayerState × List Evento :=
  let ms := if aleatorio then embaralha musicas else musicas
  let p1 := criar_playlist p ms
  (p1, tocar_playlist p1)

/-- The tracks actually sent to external playback in a trace. -/
def reproduzidas (evs : List Evento) : List MusicaObj :=
  evs.filterMap (fun e => match e with
    | Evento.reproduz m => some m
    | _ => none)

/-!
The arity bug around `ServicoMusical.tocar_todas` (`main.py`).
`def tocar_todas(self):` declares no parameter besides `self`, yet the
menu dispatch runs `self.servico.tocar_todas(self.modo_aleatorio)`; and
the body runs `self.player.tocar_musicas(musicas)` although
`def tocar_musicas(self, musicas, aleatorio)` requires two arguments.
Python checks positional-argument counts at call time and raises
`TypeError` before entering the callee, so we embed each call with its
declared parameter count and the count the caller supplies.
-/

/-- Parameters of `ServicoMusical.tocar_todas` besides `self`: none. -/
def tocar_todas_parametros : Nat := 0

/-- Parameters of `Player.tocar_musicas` besides `self`: `musicas` and
`aleatorio`. -/
def tocar_musicas_parametros : Nat := 2

/-- Outcome of a dispatched Python call: normal return carrying the
playback trace, or an uncaught `TypeError`. -/
inductive SaidaPy where
  | ok (evs : List Evento) : SaidaPy
  | typeError (msg : String) : SaidaPy
deriving DecidableEq

/-- The trace of a `SaidaPy`: a `TypeError` is raised before any
playback, so it carries no events. -/
def eventosDe : SaidaPy → List Evento
  | SaidaPy.ok evs => evs
  | SaidaPy.typeError _ => []

/-- The body of `ServicoMusical.tocar_todas` as it executes: fetch the
catalog tracks, then call `self.player.tocar_musicas(musicas)` with ONE
positional argument against a two-parameter signature — Python raises
`TypeError` at that call. -/
def tocar_todas_corpo (embaralha : List MusicaObj → List MusicaObj)
    (p : PlayerState) (musicas : List MusicaObj) : SaidaPy :=
  if 1 = tocar_musicas_parametros then
    SaidaPy.ok (tocar_musicas embaralha p musicas false).2
  else
    SaidaPy.typeError "tocar_musicas() missing 1 required positional argument: aleatorio"

/-- Menu option 3 (`InterfaceUsuario.executar`):
`self.servico.tocar_todas(self.modo_aleatorio)` — ONE positional argument
against the zero-parameter signature of `tocar_todas`; Python raises
`TypeError` before the body runs. -/
def menu_tocar_todas (embaralha : List MusicaObj → List MusicaObj)
    (p : PlayerState) (musicas : List MusicaObj) (_modo_aleatorio : Bool) :
    SaidaPy :=
  if 1 = tocar_todas_parametros then tocar_todas_corpo embaralha p musicas
  else
    SaidaPy.typeError "tocar_todas() takes 1 positional argument but 2 were given"

/-! Order facts for the two `ORDER BY` keys. -/

instance : IsTotal MusicaDen denLe :=
  ⟨fun x y => by
    unfold denLe
    rcases lt_trichotomy x.artista_nome.data y.artista_nome.data with h | h | h
    · exact Or.inl (Or.inl h)
    · have hx : x.artista_nome = y.artista_nome := String.ext h
      rcases le_total x.titulo.data y.titulo.data with ht | ht
      · exact Or.inl (Or.inr ⟨hx, ht⟩)
      · exact Or.inr (Or.inr ⟨hx.symm, ht⟩)
    · exact Or.inr (Or.inl h)⟩

instance : IsTrans MusicaDen denLe :=
  ⟨fun x y z hxy hyz => by
    unfold denLe at *
    rcases hxy with h1 | ⟨e1, t1⟩ <;> rcases hyz with h2 | ⟨e2, t2⟩
    · exact Or.inl (lt_trans h1 h2)
    · exact Or.inl (lt_of_lt_of_le h1 (le_of_eq (by rw [e2])))
    · exact Or.inl (lt_of_le_of_lt (le_of_eq (by rw [e1])) h2)
    · exact Or.inr ⟨e1.trans e2, le_trans t1 t2⟩⟩

instance : IsTotal MusicaDen tituloLe :=
  ⟨fun x y => by unfold tituloLe; exact le_total _ _⟩

instance : IsTrans MusicaDen tituloLe :=
  ⟨fun x y z h1 h2 => by unfold tituloLe at *; exact le_trans h1 h2⟩

/-! Small list facts shared by several claims. -/

/-- In a list whose images under `f` are pairwise distinct, exactly one
element maps to the image of a member. -/
theorem filtro_unico {α β : Type} [DecidableEq β] (f : α → β) (n : β)
    (l : List α) (hnd : (l.map f).Nodup) (a : α) (ha : a ∈ l)
    (hfa : f a = n) : (l.filter (fun x => f x = n)).length = 1 := by
  induction l with
  | nil => cases ha
  | cons b t ih =>
      rw [List.map_cons, List.nodup_cons] at hnd
      by_cases hb : f b = n
      · have ht : t.filter (fun x => decide (f x = n)) = [] := by
          apply List.filter_eq_nil_iff.mpr
          intro x hx
          simp only [decide_eq_true_eq]
          intro hxn
          exact hnd.1 (hb ▸ hxn ▸ List.mem_map_of_mem f hx)
        simp [List.filter_cons, hb, ht]
      · have hat : a ∈ t := by
          rcases List.mem_cons.mp ha with rfl | h
          · exact absurd hfa hb
          · exact h
        simp only [List.filter_cons, hb, decide_eq_true_eq, if_neg hb]
        simpa using ih hnd.2 hat

/-! Claims C1, C3, C4. -/

/-- C1: the claim says an `adicionar_musica` whose `artista_id` or
`genero_id` references no existing row returns an absent result and adds
no row.  The code does the opposite: on the empty database (no artist, no
genre) inserting a track with `artista_id = 1` and `genero_id = 1`
succeeds, returns id 1 and stores the row — `conectar` never runs
`PRAGMA foreign_keys = ON`, so SQLite leaves the declared foreign keys
unenforced. -/
theorem C1_insercao_fk_pendente_aceita :
    dbVazio.artistas = [] ∧ dbVazio.generos = [] ∧
    (adicionar_musica dbVazio 1 "Song" "http://x" 1).1 = some 1 ∧
    (adicionar_musica dbVazio 1 "Song" "http://x" 1).2.musicas =
      [⟨1, 1, "Song", "http://x", 1⟩] := by
  decide

/-- C3: in every state where some stored track already has url `u`, an
insert with url `u` returns `None` and leaves the state — all three
tables and the counters — exactly as it was. -/
theorem C3_url_duplicada_rejeitada (st : DB) (aid gid : Nat)
    (titulo u : String) (h : ∃ m ∈ st.musicas, m.url = u) :
    adicionar_musica st aid titulo u gid = (none, st) := by
  unfold adicionar_musica
  rw [if_pos]
  obtain ⟨m, hm, hu⟩ := h
  exact List.any_eq_true.mpr ⟨m, hm, by simpa using hu⟩

/-- C3 witness: a state holding one track with url `u1` rejects a second
insert with url `u1` and is left unchanged. -/
theorem C3_url_duplicada_rejeitada_witness :
    adicionar_musica ⟨[⟨1, "A"⟩], [⟨1, "G"⟩], [⟨1, 1, "T", "u1", 1⟩], 2, 2, 2⟩
      1 "Outra" "u1" 1 =
    (none, ⟨[⟨1, "A"⟩], [⟨1, "G"⟩], [⟨1, 1, "T", "u1", 1⟩], 2, 2, 2⟩) :=
  C3_url_duplicada_rejeitada
    ⟨[⟨1, "A"⟩], [⟨1, "G"⟩], [⟨1, 1, "T", "u1", 1⟩], 2, 2, 2⟩ 1 1 "Outra" "u1"
    ⟨⟨1, 1, "T", "u1", 1⟩, by decide, rfl⟩

/-- C4: for every catalog state and shuffle mode, dispatching menu option
3 raises `TypeError` (the menu passes one argument to the zero-parameter
`tocar_todas`), no track is played, and even a direct zero-argument call
of `tocar_todas` raises `TypeError` in its body (it passes one argument
to the two-parameter `tocar_musicas`) before any playback. -/
theorem C4_tocar_todas_sempre_typeerror
    (embaralha : List MusicaObj → List MusicaObj) (p : PlayerState)
    (musicas : List MusicaObj) (modo : Bool) :
    menu_tocar_todas embaralha p musicas modo =
      SaidaPy.typeError "tocar_todas() takes 1 positional argument but 2 were given" ∧
    eventosDe (menu_tocar_todas embaralha p musicas modo) = [] ∧
    tocar_todas_corpo embaralha p musicas =
      SaidaPy.typeError "tocar_musicas() missing 1 required positional argument: aleatorio" ∧
    reproduzidas (eventosDe (tocar_todas_corpo embaralha p musicas)) = [] := by
  refine ⟨rfl, rfl, rfl, rfl⟩

/-! Claim C7: delete semantics. -/

/-- C7: `deletar_musica` returns true exactly when a row with the id
exists; with no matching row the whole state is unchanged; afterwards a
lookup of that id is absent; the surviving rows are exactly the stored
rows with a different id (so exactly the matching row is removed, by the
length count), and the artist and genre tables are untouched. -/
theorem C7_deletar_musica (st : DB) (mid : Nat) :
    ((deletar_musica st mid).1 = true ↔ ∃ m ∈ st.musicas, m.id = mid) ∧
    ((deletar_musica st mid).1 = false → (deletar_musica st mid).2 = st) ∧
    obter_musica_por_id (deletar_musica st mid).2 mid = none ∧
    (∀ m ∈ (deletar_musica st mid).2.musicas, m ∈ st.musicas ∧ ¬(m.id = mid)) ∧
    (∀ m ∈ st.musicas, ¬(m.id = mid) → m ∈ (deletar_musica st mid).2.musicas) ∧
    st.musicas.length =
      (deletar_musica st mid).2.musicas.length +
        (st.musicas.filter (fun m => m.id = mid)).length ∧
    (deletar_musica st mid).2.artistas = st.artistas ∧
    (deletar_musica st mid).2.generos = st.generos := by
  refine ⟨?_, ?_, ?_, ?_, ?_, ?_, rfl, rfl⟩
  · simp [deletar_musica]
  · intro h
    have hall : ∀ m ∈ st.musicas, ¬(m.id = mid) := by
      simpa [deletar_musica] using h
    have hfil : st.musicas.filter (fun m => ¬(m.id = mid)) = st.musicas :=
      List.filter_eq_self.mpr (fun m hm => by simpa using hall m hm)
    cases st
    simp only [deletar_musica] at hfil ⊢
    simp_all
  · have hnone : ((st.musicas.filter (fun m => ¬(m.id = mid))).find?
        (fun m => m.id = mid)) = none := by
      apply List.find?_eq_none.mpr
      intro x hx
      simpa using (List.mem_filter.mp hx).2
    show ((st.musicas.filter (fun m => ¬(m.id = mid))).find?
        (fun m => m.id = mid)).bind (denorm1 (deletar_musica st mid).2) = none
    rw [hnone]
    rfl
  · intro m hm
    have := List.mem_filter.mp hm
    exact ⟨this.1, by simpa using this.2⟩
  · intro m hm h
    exact List.mem_filter.mpr ⟨hm, by simpa using h⟩
  · have h := List.length_eq_length_filter_add
      (l := st.musicas) (fun m => decide ¬(m.id = mid))
    simpa [deletar_musica, decide_not] using h

/-! Claim C10: shuffled playback. -/

/-- The playback trace of a concatenation splits. -/
theorem reproduzidas_append (a b : List Evento) :
    reproduzidas (a ++ b) = reproduzidas a ++ reproduzidas b := by
  simp [reproduzidas]

/-- Display events contribute nothing to the playback trace. -/
theorem reproduzidas_zip (ns : List Nat) (ms : List MusicaObj) :
    reproduzidas (List.zipWith (fun i m => Evento.exibe (i + 1) m) ns ms)
      = [] := by
  induction ns generalizing ms with
  | nil => rfl
  | cons n t ih =>
      cases ms with
      | nil => rfl
      | cons m mt => simpa [reproduzidas] using ih mt

/-- Playback events of `map Evento.reproduz` are the tracks themselves. -/
theorem reproduzidas_map (ms : List MusicaObj) :
    reproduzidas (ms.map Evento.reproduz) = ms := by
  induction ms with
  | nil => rfl
  | cons m t ih => simpa [reproduzidas] using ih

/-- `tocar_playlist` plays exactly the current playlist, in order, when
it is non-empty, and plays nothing when it is empty. -/
theorem reproduzidas_tocar_playlist (q : PlayerState) :
    reproduzidas (tocar_playlist q) =
      if q.playlist_atual = [] then [] else q.playlist_atual := by
  unfold tocar_playlist
  by_cases h : q.playlist_atual = []
  · simp [h, reproduzidas]
  · rw [if_neg h, if_neg h, reproduzidas_append]
    unfold exibir_playlist
    rw [reproduzidas_zip, reproduzidas_map, List.nil_append]

/-- C10: with shuffle requested and any permutation-producing shuffle,
`tocar_musicas` installs a permutation of the input as the playlist and
the playback trace is a permutation of the input — every track is played
exactly as many times as it occurs (so distinct tracks exactly once);
with the empty list only the "Playlist vazia!" report happens and nothing
is played. -/
theorem C10_embaralhado_preserva_multiconjunto
    (embaralha : List MusicaObj → List MusicaObj) (p : PlayerState)
    (musicas : List MusicaObj)
    (hperm : ∀ l, List.Perm (embaralha l) l) (hlen : 1 < musicas.length) :
    List.Perm (tocar_musicas embaralha p musicas true).1.playlist_atual musicas ∧
    List.Perm (reproduzidas (tocar_musicas embaralha p musicas true).2) musicas ∧
    (∀ m, (reproduzidas (tocar_musicas embaralha p musicas true).2).count m
        = musicas.count m) ∧
    (tocar_musicas embaralha p [] true).2 = [Evento.playlistVazia] ∧
    reproduzidas (tocar_musicas embaralha p [] true).2 = [] := by
  have hp := hperm musicas
  have hne : ¬(embaralha musicas = []) := by
    intro h
    have hl := hp.length_eq
    rw [h] at hl
    simp at hl
    omega
  have hnil : embaralha [] = [] := (hperm []).eq_nil
  have htr : reproduzidas (tocar_musicas embaralha p musicas true).2
      = embaralha musicas := by
    show reproduzidas (tocar_playlist (criar_playlist p (embaralha musicas)))
      = embaralha musicas
    rw [reproduzidas_tocar_playlist]
    simp [criar_playlist, hne]
  refine ⟨by simpa [tocar_musicas, criar_playlist] using hp, ?_, ?_, ?_, ?_⟩
  · rw [htr]; exact hp
  · intro m
    rw [htr]
    exact hp.count_eq m
  · show tocar_playlist (criar_playlist p (embaralha [])) = [Evento.playlistVazia]
    simp [hnil, criar_playlist, tocar_playlist]
  · show reproduzidas (tocar_playlist (criar_playlist p (embaralha []))) = []
    rw [reproduzidas_tocar_playlist]
    simp [hnil, criar_playlist]

/-- C10 witness: reversing is a permutation-producing shuffle; on a
concrete two-track list the playlist and the trace are permutations of
the input, counts are preserved, and the empty list only reports. -/
theorem C10_embaralhado_preserva_multiconjunto_witness :
    List.Perm (tocar_musicas List.reverse ⟨false, 80, []⟩
      [⟨1, "X", "u1", 1, 1, none, none⟩, ⟨2, "Y", "u2", 1, 1, none, none⟩]
      true).1.playlist_atual
      [⟨1, "X", "u1", 1, 1, none, none⟩, ⟨2, "Y", "u2", 1, 1, none, none⟩] ∧
    List.Perm (reproduzidas (tocar_musicas List.reverse ⟨false, 80, []⟩
      [⟨1, "X", "u1", 1, 1, none, none⟩, ⟨2, "Y", "u2", 1, 1, none, none⟩]
      true).2)
      [⟨1, "X", "u1", 1, 1, none, none⟩, ⟨2, "Y", "u2", 1, 1, none, none⟩] ∧
    (∀ m, (reproduzidas (tocar_musicas List.reverse ⟨false, 80, []⟩
      [⟨1, "X", "u1", 1, 1, none, none⟩, ⟨2, "Y", "u2", 1, 1, none, none⟩]
      true).2).count m =
      [⟨1, "X", "u1", 1, 1, none, none⟩,
       ⟨2, "Y", "u2", 1, 1, none, none⟩].count m) ∧
    (tocar_musicas List.reverse ⟨false, 80, []⟩ ([] : List MusicaObj)
      true).2 = [Evento.playlistVazia] ∧
    reproduzidas (tocar_musicas List.reverse ⟨false, 80, []⟩
      ([] : List MusicaObj) true).2 = [] :=
  C10_embaralhado_preserva_multiconjunto List.reverse ⟨false, 80, []⟩
    [⟨1, "X", "u1", 1, 1, none, none⟩, ⟨2, "Y", "u2", 1, 1, none, none⟩]
    (fun l => l.reverse_perm) (by decide)

/-! Claim C2: get-or-create for artists and genres. -/

/-- C2: under the `nome UNIQUE` invariant of both name tables, two
consecutive `adicionar_artista` calls with the same name both return an
id, the same id, and exactly one row with that name exists afterwards;
`adicionar_genero` behaves identically on its own table. -/
theorem C2_adicionar_duas_vezes (st : DB) (n : String)
    (hA : (st.artistas.map Artista.nome).Nodup)
    (hG : (st.generos.map Genero.nome).Nodup) :
    ((adicionar_artista st n).1.isSome = true ∧
     (adicionar_artista (adicionar_artista st n).2 n).1
        = (adicionar_artista st n).1 ∧
     ((adicionar_artista (adicionar_artista st n).2 n).2.artistas.filter
        (fun a => a.nome = n)).length = 1) ∧
    ((adicionar_genero st n).1.isSome = true ∧
     (adicionar_genero (adicionar_genero st n).2 n).1
        = (adicionar_genero st n).1 ∧
     ((adicionar_genero (adicionar_genero st n).2 n).2.generos.filter
        (fun g => g.nome = n)).length = 1) := by
  constructor
  · rcases hfa : st.artistas.find? (fun a => a.nome = n) with _ | a
    · have h1 : adicionar_artista st n =
          (some st.prox_artista,
           { st with artistas := st.artistas ++ [Artista.mk st.prox_artista n],
                     prox_artista := st.prox_artista + 1 }) := by
        unfold adicionar_artista
        rw [hfa]
      have hnovo : (st.artistas ++ [Artista.mk st.prox_artista n]).find?
          (fun a => a.nome = n) = some (Artista.mk st.prox_artista n) := by
        rw [List.find?_append, hfa, Option.none_or]
        simp
      have h2 : adicionar_artista (adicionar_artista st n).2 n =
          (some st.prox_artista, (adicionar_artista st n).2) := by
        rw [h1]
        unfold adicionar_artista
        dsimp only
        rw [hnovo]
      have hfil : st.artistas.filter (fun a => a.nome = n) = [] := by
        apply List.filter_eq_nil_iff.mpr
        intro a ha
        simpa using List.find?_eq_none.mp hfa a ha
      refine ⟨by rw [h1]; rfl, by rw [h2, h1], ?_⟩
      rw [h2, h1]
      dsimp only
      rw [List.filter_append, hfil]
      simp
    · have h1 : adicionar_artista st n = (some a.id, st) := by
        unfold adicionar_artista
        rw [hfa]
      have hmem := List.mem_of_find?_eq_some hfa
      have hnome : a.nome = n := by simpa using List.find?_some hfa
      refine ⟨by rw [h1]; rfl, ?_, ?_⟩
      · rw [h1]
        dsimp only
        rw [h1]
      · rw [h1]
        dsimp only
        rw [h1]
        dsimp only
        exact filtro_unico Artista.nome n st.artistas hA a hmem hnome
  · rcases hfg : st.generos.find? (fun g => g.nome = n) with _ | g
    · have h1 : adicionar_genero st n =
          (some st.prox_genero,
           { st with generos := st.generos ++ [Genero.mk st.prox_genero n],
                     prox_genero := st.prox_genero + 1 }) := by
        unfold adicionar_genero
        rw [hfg]
      have hnovo : (st.generos ++ [Genero.mk st.prox_genero n]).find?
          (fun g => g.nome = n) = some (Genero.mk st.prox_genero n) := by
        rw [List.find?_append, hfg, Option.none_or]
        simp
      have h2 : adicionar_genero (adicionar_genero st n).2 n =
          (some st.prox_genero, (adicionar_genero st n).2) := by
        rw [h1]
        unfold adicionar_genero
        dsimp only
        rw [hnovo]
      have hfil : st.generos.filter (fun g => g.nome = n) = [] := by
        apply List.filter_eq_nil_iff.mpr
        intro g hg
        simpa using List.find?_eq_none.mp hfg g hg
      refine ⟨by rw [h1]; rfl, by rw [h2, h1], ?_⟩
      rw [h2, h1]
      dsimp only
      rw [List.filter_append, hfil]
      simp
    · have h1 : adicionar_genero st n = (some g.id, st) := by
        unfold adicionar_genero
        rw [hfg]
      have hmem := List.mem_of_find?_eq_some hfg
      have hnome : g.nome = n := by simpa using List.find?_some hfg
      refine ⟨by rw [h1]; rfl, ?_, ?_⟩
      · rw [h1]
        dsimp only
        rw [h1]
      · rw [h1]
        dsimp only
        rw [h1]
        dsimp only
        exact filtro_unico Genero.nome n st.generos hG g hmem hnome

/-- C2 witness: on the empty database with name "Abba", both tables show
the get-or-create behaviour concretely. -/
theorem C2_adicionar_duas_vezes_witness :
    ((adicionar_artista dbVazio "Abba").1.isSome = true ∧
     (adicionar_artista (adicionar_artista dbVazio "Abba").2 "Abba").1
        = (adicionar_artista dbVazio "Abba").1 ∧
     ((adicionar_artista (adicionar_artista dbVazio "Abba").2 "Abba").2.artistas.filter
        (fun a => a.nome = "Abba")).length = 1) ∧
    ((adicionar_genero dbVazio "Abba").1.isSome = true ∧
     (adicionar_genero (adicionar_genero dbVazio "Abba").2 "Abba").1
        = (adicionar_genero dbVazio "Abba").1 ∧
     ((adicionar_genero (adicionar_genero dbVazio "Abba").2 "Abba").2.generos.filter
        (fun g => g.nome = "Abba")).length = 1) :=
  C2_adicionar_duas_vezes dbVazio "Abba" (by decide) (by decide)

/-! Claims C5 and C6: partial update. -/

/-- A falsy-guarded string field keeps an empty stored value empty: the
update can only write a non-empty string. -/
theorem truthy_if_vazio (o : Option String) (d : String)
    (h : (if truthyStr o then o.getD d else d) = "") : d = "" := by
  cases o with
  | none => simpa [truthyStr] using h
  | some s =>
      by_cases hs : s = ""
      · simpa [truthyStr, hs] using h
      · rw [if_pos (by simp [truthyStr, hs])] at h
        simp [Option.getD] at h
        exact absurd h hs

/-- A falsy-guarded integer field keeps a zero stored value zero: the
update can only write a non-zero id. -/
theorem truthy_if_zero (o : Option Nat) (d : Nat)
    (h : (if truthyNat o then o.getD d else d) = 0) : d = 0 := by
  cases o with
  | none => simpa [truthyNat] using h
  | some k =>
      by_cases hk : k = 0
      · simpa [truthyNat, hk] using h
      · rw [if_pos (by simp [truthyNat, hk])] at h
        simp [Option.getD] at h
        exact absurd h hk

/-- C5: a call of `atualizar_musica` in which every supplied field is
falsy (absent, empty string, or zero id) returns `False` and leaves the
state untouched; and after ANY call of `atualizar_musica`, every stored
row with an empty title, empty url, zero artist id or zero genre id
corresponds to a pre-existing row of the same id that already had that
falsy value — so no update can set title or url to "" or an id to 0. -/
theorem C5_atualizar_campos_falsos (st : DB) (mid mid2 : Nat)
    (t u t2 u2 : Option String) (a g a2 g2 : Option Nat) (m' : Musica)
    (h1 : truthyStr t = false) (h2 : truthyStr u = false)
    (h3 : truthyNat a = false) (h4 : truthyNat g = false)
    (hm' : m' ∈ (atualizar_musica st mid2 t2 u2 a2 g2).2.musicas) :
    atualizar_musica st mid t u a g = (false, st) ∧
    ∃ m ∈ st.musicas, m.id = m'.id ∧
      (m'.titulo = "" → m.titulo = "") ∧ (m'.url = "" → m.url = "") ∧
      (m'.artista_id = 0 → m.artista_id = 0) ∧
      (m'.genero_id = 0 → m.genero_id = 0) := by
  constructor
  · unfold atualizar_musica
    rw [h1, h2, h3, h4]
    simp
  · unfold atualizar_musica at hm'
    split at hm'
    · exact ⟨m', hm', rfl, fun h => h, fun h => h, fun h => h, fun h => h⟩
    · split at hm'
      · exact ⟨m', hm', rfl, fun h => h, fun h => h, fun h => h, fun h => h⟩
      · obtain ⟨m, hm, heq⟩ := List.mem_map.mp hm'
        refine ⟨m, hm, ?_⟩
        by_cases hid : m.id = mid2
        · rw [if_pos hid] at heq
          subst heq
          exact ⟨rfl,
            fun h => truthy_if_vazio t2 m.titulo h,
            fun h => truthy_if_vazio u2 m.url h,
            fun h => truthy_if_zero a2 m.artista_id h,
            fun h => truthy_if_zero g2 m.genero_id h⟩
        · rw [if_neg hid] at heq
          subst heq
          exact ⟨rfl, fun h => h, fun h => h, fun h => h, fun h => h⟩

/-- C5 witness: a no-field update (None, "", None, 0) on a one-track
state returns false and changes nothing, and any row surviving a real
update keeps the falsy-field guarantee. -/
theorem C5_atualizar_campos_falsos_witness :
    atualizar_musica ⟨[⟨1, "A"⟩], [⟨1, "G"⟩], [⟨1, 1, "T", "u1", 1⟩], 2, 2, 2⟩
        1 none (some "") none (some 0) =
      (false, ⟨[⟨1, "A"⟩], [⟨1, "G"⟩], [⟨1, 1, "T", "u1", 1⟩], 2, 2, 2⟩) ∧
    ∃ m ∈ (⟨[⟨1, "A"⟩], [⟨1, "G"⟩], [⟨1, 1, "T", "u1", 1⟩], 2, 2, 2⟩ : DB).musicas,
      m.id = (⟨1, 1, "Novo", "u1", 1⟩ : Musica).id ∧
      ((⟨1, 1, "Novo", "u1", 1⟩ : Musica).titulo = "" → m.titulo = "") ∧
      ((⟨1, 1, "Novo", "u1", 1⟩ : Musica).url = "" → m.url = "") ∧
      ((⟨1, 1, "Novo", "u1", 1⟩ : Musica).artista_id = 0 → m.artista_id = 0) ∧
      ((⟨1, 1, "Novo", "u1", 1⟩ : Musica).genero_id = 0 → m.genero_id = 0) :=
  C5_atualizar_campos_falsos
    ⟨[⟨1, "A"⟩], [⟨1, "G"⟩], [⟨1, 1, "T", "u1", 1⟩], 2, 2, 2⟩ 1 1
    none (some "") (some "Novo") none none (some 0) none none
    ⟨1, 1, "Novo", "u1", 1⟩
    (by decide) (by decide) (by decide) (by decide) (by decide)

/-- C6: updating only the title (a non-empty one) of an existing track
returns true and produces exactly the state in which that track's title
is replaced and everything else — its other fields, all other rows, both
name tables and the counters — is unchanged. -/
theorem C6_atualizar_somente_titulo (st : DB) (mid : Nat) (t : String)
    (ht : ¬(t = "")) (hmem : ∃ m ∈ st.musicas, m.id = mid) :
    atualizar_musica st mid (some t) none none none =
      (true,
       { st with musicas := st.musicas.map (fun m =>
           if m.id = mid then { m with titulo := t } else m) }) := by
  have hany : st.musicas.any (fun m => m.id = mid) = true := by
    obtain ⟨m, hm, he⟩ := hmem
    exact List.any_eq_true.mpr ⟨m, hm, by simpa using he⟩
  have hmap : st.musicas.map (fun m =>
        if m.id = mid then aplicarCampos (some t) none none none m else m)
      = st.musicas.map (fun m =>
        if m.id = mid then { m with titulo := t } else m) := by
    apply List.map_congr_left
    intro m _
    by_cases h : m.id = mid <;>
      simp [h, aplicarCampos, truthyStr, truthyNat, ht]
  unfold atualizar_musica
  rw [if_neg (by simp [truthyStr, ht]), if_neg (by simp [truthyStr])]
  rw [hany, hmap]

/-- C6 witness: renaming track 1 of a two-track state changes only that
title. -/
theorem C6_atualizar_somente_titulo_witness :
    atualizar_musica
      ⟨[⟨1, "A"⟩], [⟨1, "G"⟩],
       [⟨1, 1, "T", "u1", 1⟩, ⟨2, 1, "S", "u2", 1⟩], 2, 2, 3⟩
      1 (some "Novo") none none none =
    (true,
     { (⟨[⟨1, "A"⟩], [⟨1, "G"⟩],
         [⟨1, 1, "T", "u1", 1⟩, ⟨2, 1, "S", "u2", 1⟩], 2, 2, 3⟩ : DB) with
        musicas := [⟨1, 1, "T", "u1", 1⟩, ⟨2, 1, "S", "u2", 1⟩].map (fun m =>
          if m.id = 1 then { m with titulo := "Novo" } else m) }) :=
  C6_atualizar_somente_titulo
    ⟨[⟨1, "A"⟩], [⟨1, "G"⟩],
     [⟨1, 1, "T", "u1", 1⟩, ⟨2, 1, "S", "u2", 1⟩], 2, 2, 3⟩
    1 "Novo" (by decide) ⟨⟨1, 1, "T", "u1", 1⟩, by decide, rfl⟩

/-! Claim C8: denormalized listings and their orderings. -/

/-- The referential-integrity invariant the schema declares (and intends):
every stored track references an existing artist and genre row. -/
def fkOk (st : DB) : Prop :=
  ∀ m ∈ st.musicas,
    (∃ a ∈ st.artistas, a.id = m.artista_id) ∧
    (∃ g ∈ st.generos, g.id = m.genero_id)

instance : DecidablePred fkOk := fun st => by
  unfold fkOk; infer_instance

/-- Forget the joined names of a denormalized record, back to the raw
`musicas` row. -/
def semNomes (r : MusicaDen) : Musica :=
  ⟨r.id, r.artista_id, r.titulo, r.url, r.genero_id⟩

/-- Under `fkOk`, the join succeeds on every stored row and forgetting
names recovers the row. -/
theorem denorm1_total (st : DB) (h : fkOk st) (m : Musica)
    (hm : m ∈ st.musicas) : ∃ r, denorm1 st m = some r ∧ semNomes r = m := by
  obtain ⟨⟨a, ha, haid⟩, ⟨g, hg, hgid⟩⟩ := h m hm
  have hfa : (st.artistas.find? (fun a => a.id = m.artista_id)).isSome := by
    rw [List.find?_isSome]
    exact ⟨a, ha, by simpa using haid⟩
  obtain ⟨a2, ha2⟩ := Option.isSome_iff_exists.mp hfa
  have hfg : (st.generos.find? (fun g => g.id = m.genero_id)).isSome := by
    rw [List.find?_isSome]
    exact ⟨g, hg, by simpa using hgid⟩
  obtain ⟨g2, hg2⟩ := Option.isSome_iff_exists.mp hfg
  refine ⟨⟨m.id, m.artista_id, m.titulo, m.url, m.genero_id,
    a2.nome, g2.nome⟩, ?_, rfl⟩
  unfold denorm1
  rw [ha2, hg2]
  rfl

/-- What a successful join says about the produced record: forgetting
names recovers the row, and each name is the name of a stored artist /
genre row whose id the record carries. -/
theorem denorm1_campos (st : DB) (m : Musica) (r : MusicaDen)
    (h : denorm1 st m = some r) :
    semNomes r = m ∧
    (∃ a ∈ st.artistas, a.id = r.artista_id ∧ a.nome = r.artista_nome) ∧
    (∃ g ∈ st.generos, g.id = r.genero_id ∧ g.nome = r.genero_nome) := by
  unfold denorm1 at h
  obtain ⟨a, ha, h2⟩ := Option.bind_eq_some.mp h
  obtain ⟨g, hg, h3⟩ := Option.map_eq_some'.mp h2
  subst h3
  refine ⟨rfl, ⟨a, List.mem_of_find?_eq_some ha, ?_, rfl⟩,
    ⟨g, List.mem_of_find?_eq_some hg, ?_, rfl⟩⟩
  · simpa using List.find?_some ha
  · simpa using List.find?_some hg

/-- Under `fkOk`, joining a sublist of the stored rows and forgetting the
names gives the sublist back. -/
theorem semNomes_filterMap (st : DB) (h : fkOk st) :
    ∀ l : List Musica, (∀ m ∈ l, m ∈ st.musicas) →
      (l.filterMap (denorm1 st)).map semNomes = l := by
  intro l
  induction l with
  | nil => intro _; rfl
  | cons m tl ih =>
      intro hsub
      obtain ⟨r, hr, hs⟩ := denorm1_total st h m (hsub m (List.mem_cons_self m tl))
      simp only [List.filterMap_cons, hr, List.map_cons]
      rw [hs, ih (fun x hx => hsub x (List.mem_cons_of_mem m hx))]

/-- C8: under referential integrity, `obter_todas_musicas` is sorted by
(artist name, title), is — up to forgetting the joined names — a
permutation of the whole `musicas` table (every track appears exactly
once), and every record carries the correct denormalized names; the
per-artist and per-genre listings are sorted by title and are the
matching rows exactly. -/
theorem C8_listagens_ordenadas (st : DB) (h : fkOk st) :
    List.Sorted denLe (obter_todas_musicas st) ∧
    List.Perm ((obter_todas_musicas st).map semNomes) st.musicas ∧
    (∀ r ∈ obter_todas_musicas st,
      (∃ a ∈ st.artistas, a.id = r.artista_id ∧ a.nome = r.artista_nome) ∧
      (∃ g ∈ st.generos, g.id = r.genero_id ∧ g.nome = r.genero_nome)) ∧
    (∀ aid, List.Sorted tituloLe (obter_musicas_por_artista st aid) ∧
      List.Perm ((obter_musicas_por_artista st aid).map semNomes)
        (st.musicas.filter (fun m => m.artista_id = aid)) ∧
      ∀ r ∈ obter_musicas_por_artista st aid, r.artista_id = aid) ∧
    (∀ gid, List.Sorted tituloLe (obter_musicas_por_genero st gid) ∧
      List.Perm ((obter_musicas_por_genero st gid).map semNomes)
        (st.musicas.filter (fun m => m.genero_id = gid)) ∧
      ∀ r ∈ obter_musicas_por_genero st gid, r.genero_id = gid) := by
  refine ⟨List.sorted_insertionSort denLe (denormAll st), ?_, ?_, ?_, ?_⟩
  · have hp := (List.perm_insertionSort denLe (denormAll st)).map semNomes
    unfold denormAll at hp
    rw [semNomes_filterMap st h st.musicas (fun m hm => hm)] at hp
    exact hp
  · intro r hr
    have hr2 : r ∈ denormAll st :=
      (List.perm_insertionSort denLe (denormAll st)).mem_iff.mp hr
    obtain ⟨m, _, hden⟩ := List.mem_filterMap.mp hr2
    exact (denorm1_campos st m r hden).2
  · intro aid
    refine ⟨List.sorted_insertionSort tituloLe _, ?_, ?_⟩
    · have hp := (List.perm_insertionSort tituloLe
        ((st.musicas.filter (fun m => m.artista_id = aid)).filterMap
          (denorm1 st))).map semNomes
      rwa [semNomes_filterMap st h _
        (fun m hm => (List.mem_filter.mp hm).1)] at hp
    · intro r hr
      have hr2 := (List.perm_insertionSort tituloLe
        ((st.musicas.filter (fun m => m.artista_id = aid)).filterMap
          (denorm1 st))).mem_iff.mp hr
      obtain ⟨m, hm, hden⟩ := List.mem_filterMap.mp hr2
      have hsm := (denorm1_campos st m r hden).1
      have hmf : m.artista_id = aid := by
        simpa using (List.mem_filter.mp hm).2
      have : r.artista_id = m.artista_id := congrArg Musica.artista_id hsm
      rw [this, hmf]
  · intro gid
    refine ⟨List.sorted_insertionSort tituloLe _, ?_, ?_⟩
    · have hp := (List.perm_insertionSort tituloLe
        ((st.musicas.filter (fun m => m.genero_id = gid)).filterMap
          (denorm1 st))).map semNomes
      rwa [semNomes_filterMap st h _
        (fun m hm => (List.mem_filter.mp hm).1)] at hp
    · intro r hr
      have hr2 := (List.perm_insertionSort tituloLe
        ((st.musicas.filter (fun m => m.genero_id = gid)).filterMap
          (denorm1 st))).mem_iff.mp hr
      obtain ⟨m, hm, hden⟩ := List.mem_filterMap.mp hr2
      have hsm := (denorm1_campos st m r hden).1
      have hmf : m.genero_id = gid := by
        simpa using (List.mem_filter.mp hm).2
      have : r.genero_id = m.genero_id := congrArg Musica.genero_id hsm
      rw [this, hmf]

/-- The state of the spec's listing example, built by the operations
themselves: artist "B" and its track "Y" inserted first, then artist "A"
and its track "X". -/
def dbExemplo : DB :=
  (adicionar_musica
    (adicionar_artista
      (adicionar_musica
        (adicionar_genero (adicionar_artista dbVazio "B").2 "Rock").2
        1 "Y" "url-b-y" 1).2
      "A").2
    2 "X" "url-a-x" 1).2

/-- C8 witness: the claim example — after inserting tracks for artists
"B","A" with titles "Y","X", the full listing comes back as
(A,X) then (B,Y) — together with the general conclusion at that state. -/
theorem C8_listagens_ordenadas_witness :
    (List.Sorted denLe (obter_todas_musicas dbExemplo) ∧
     List.Perm ((obter_todas_musicas dbExemplo).map semNomes) dbExemplo.musicas ∧
     (∀ r ∈ obter_todas_musicas dbExemplo,
       (∃ a ∈ dbExemplo.artistas, a.id = r.artista_id ∧ a.nome = r.artista_nome) ∧
       (∃ g ∈ dbExemplo.generos, g.id = r.genero_id ∧ g.nome = r.genero_nome)) ∧
     (∀ aid, List.Sorted tituloLe (obter_musicas_por_artista dbExemplo aid) ∧
       List.Perm ((obter_musicas_por_artista dbExemplo aid).map semNomes)
         (dbExemplo.musicas.filter (fun m => m.artista_id = aid)) ∧
       ∀ r ∈ obter_musicas_por_artista dbExemplo aid, r.artista_id = aid) ∧
     (∀ gid, List.Sorted tituloLe (obter_musicas_por_genero dbExemplo gid) ∧
       List.Perm ((obter_musicas_por_genero dbExemplo gid).map semNomes)
         (dbExemplo.musicas.filter (fun m => m.genero_id = gid)) ∧
       ∀ r ∈ obter_musicas_por_genero dbExemplo gid, r.genero_id = gid)) ∧
    (obter_todas_musicas dbExemplo).map (fun r => (r.artista_nome, r.titulo))
      = [("A", "X"), ("B", "Y")] :=
  ⟨C8_listagens_ordenadas dbExemplo (by decide), by decide⟩

/-! Claim C9: search. -/

/-- `Bool.any` respects pointwise equal predicates. -/
theorem anyCongr {α : Type} (l : List α) (f g : α → Bool)
    (h : ∀ x, f x = g x) : l.any f = l.any g := by
  induction l with
  | nil => rfl
  | cons a t ih => simp [List.any_cons, h a, ih]

/-- The empty list is a suffix of every list. -/
theorem mem_sufixos_nil (s : List Char) : [] ∈ sufixos s := by
  induction s with
  | nil => simp [sufixos]
  | cons c cs ih => exact List.mem_cons_of_mem _ ih

/-- A lone `%` matches every string. -/
theorem likeMatch_pct (s : List Char) : likeMatch ['%'] s = true := by
  simp only [likeMatch, if_pos rfl]
  exact List.any_eq_true.mpr ⟨[], mem_sufixos_nil s, rfl⟩

/-- A wildcard-free pattern followed by `%` matches exactly the strings
starting with the pattern. -/
theorem likeMatch_plain_pct (p : List Char) (hp : p.all semCuringa = true) :
    ∀ s, likeMatch (p ++ ['%']) s = comecaCom p s := by
  induction p with
  | nil =>
      intro s
      rw [List.nil_append, likeMatch_pct]
      rfl
  | cons a p' ih =>
      rw [List.all_cons, Bool.and_eq_true] at hp
      have ha : ¬(a = '%') ∧ ¬(a = '_') := by
        simpa [semCuringa] using hp.1
      intro s
      cases s with
      | nil => simp [likeMatch, comecaCom, ha.1]
      | cons c cs =>
          simp [likeMatch, comecaCom, ha.1, ha.2, ih hp.2 cs]

/-- Substring containment is matching some suffix at its start. -/
theorem contemSub_any (pat : List Char) (s : List Char) :
    contemSub pat s = (sufixos s).any (fun s1 => comecaCom pat s1) := by
  induction s with
  | nil => simp [contemSub, sufixos]
  | cons c cs ih => simp [contemSub, sufixos, ih]

/-- For a wildcard-free term, the `LIKE '%termo%'` matcher is exactly
substring containment. -/
theorem likeMatch_wrap (p : List Char) (hp : p.all semCuringa = true)
    (s : List Char) :
    likeMatch ('%' :: (p ++ ['%'])) s = contemSub p s := by
  have h1 : likeMatch ('%' :: (p ++ ['%'])) s
      = (sufixos s).any (fun s1 => likeMatch (p ++ ['%']) s1) := by
    simp [likeMatch]
  rw [h1, contemSub_any]
  exact anyCongr _ _ _ (fun s1 => likeMatch_plain_pct p hp s1)

/-- ASCII case folding maps no character onto a `LIKE` wildcard. -/
theorem dobraChar_semCuringa (c : Char) (h : semCuringa c = true) :
    semCuringa (dobraChar c) = true := by
  unfold dobraChar
  split
  case isTrue hc =>
      have key : ∀ n, n < 91 → 65 ≤ n →
          semCuringa (Char.ofNat (n + 32)) = true := by decide
      exact key c.toNat (by omega) hc.1
  case isFalse _ => exact h

/-- Folding a wildcard-free term keeps it wildcard-free. -/
theorem dobra_semCuringa (t : String) (h : t.data.all semCuringa = true) :
    (dobra t).all semCuringa = true := by
  unfold dobra
  rw [List.all_eq_true] at h
  rw [List.all_eq_true]
  intro c hc
  obtain ⟨c0, hc0, rfl⟩ := List.mem_map.mp hc
  exact dobraChar_semCuringa c0 (h c0 hc0)

/-- For wildcard-free terms the code's WHERE clause is the spec's
case-insensitive substring predicate. -/
theorem likeTermo_contemCI (termo s : String)
    (h : termo.data.all semCuringa = true) :
    likeTermo termo s = contemCI termo s := by
  unfold likeTermo contemCI
  exact likeMatch_wrap (dobra termo) (dobra_semCuringa termo h) (dobra s)

/-- A one-track state refuting the claim for wildcard terms. -/
def dbContra : DB :=
  ⟨[⟨1, "Ghi"⟩], [⟨1, "Rock"⟩], [⟨1, 1, "Cde", "u1", 1⟩], 2, 2, 2⟩

/-- C9 counterexample: the claim says `buscar_musicas` returns exactly
the tracks whose title or artist name contains the term as a
case-insensitive substring, for EVERY term.  With the term "_de" the code
returns the track titled "Cde" by "Ghi" although neither contains "_de"
— SQLite treats `_` (and `%`) in the term as LIKE wildcards. -/
theorem C9_busca_curinga_contraexemplo :
    buscar_musicas dbContra "_de" = [⟨1, 1, "Cde", "u1", 1, "Ghi", "Rock"⟩] ∧
    contemCI "_de" "Cde" = false ∧ contemCI "_de" "Ghi" = false := by
  decide

/-- C9 amended: for every term free of the LIKE wildcards `%` and `_`,
`buscar_musicas` returns — in the (artist name, title) order of
`obter_todas_musicas` — exactly the denormalized records whose title or
artist name contains the term as a case-insensitive substring. -/
theorem C9_busca_substring_sem_curinga (st : DB) (termo : String)
    (h : termo.data.all semCuringa = true) :
    List.Sorted denLe (buscar_musicas st termo) ∧
    List.Perm (buscar_musicas st termo)
      ((denormAll st).filter (fun r =>
        contemCI termo r.titulo || contemCI termo r.artista_nome)) ∧
    (∀ r, r ∈ buscar_musicas st termo ↔
      r ∈ denormAll st ∧
        (contemCI termo r.titulo || contemCI termo r.artista_nome) = true) := by
  have hfil : (denormAll st).filter (fun r =>
        likeTermo termo r.titulo || likeTermo termo r.artista_nome)
      = (denormAll st).filter (fun r =>
        contemCI termo r.titulo || contemCI termo r.artista_nome) := by
    apply List.filter_congr
    intro r _
    rw [likeTermo_contemCI _ _ h, likeTermo_contemCI _ _ h]
  have hperm : List.Perm (buscar_musicas st termo)
      ((denormAll st).filter (fun r =>
        contemCI termo r.titulo || contemCI termo r.artista_nome)) := by
    have hp := List.perm_insertionSort denLe
      ((denormAll st).filter (fun r =>
        likeTermo termo r.titulo || likeTermo termo r.artista_nome))
    nth_rewrite 2 [hfil] at hp
    exact hp
  refine ⟨List.sorted_insertionSort denLe _, hperm, ?_⟩
  intro r
  rw [hperm.mem_iff, List.mem_filter]

/-- The state of the claim's search example: a track titled
"Abba Tribute", a track by the artist "Abba", and a track titled "Cde" by
"Ghi". -/
def dbBusca : DB :=
  ⟨[⟨1, "Zz"⟩, ⟨2, "Abba"⟩, ⟨3, "Ghi"⟩], [⟨1, "Rock"⟩],
   [⟨1, 1, "Abba Tribute", "u1", 1⟩, ⟨2, 2, "Song", "u2", 1⟩,
    ⟨3, 3, "Cde", "u3", 1⟩], 4, 2, 4⟩

/-- C9 witness: the wildcard-free term "ab" — sorted result, exactly the
matching records, and concretely the two expected tracks (the "Abba"
track first by artist order) and not the "Cde"/"Ghi" one. -/
theorem C9_busca_substring_sem_curinga_witness :
    (List.Sorted denLe (buscar_musicas dbBusca "ab") ∧
     List.Perm (buscar_musicas dbBusca "ab")
       ((denormAll dbBusca).filter (fun r =>
         contemCI "ab" r.titulo || contemCI "ab" r.artista_nome)) ∧
     (∀ r, r ∈ buscar_musicas dbBusca "ab" ↔
       r ∈ denormAll dbBusca ∧
         (contemCI "ab" r.titulo || contemCI "ab" r.artista_nome) = true)) ∧
    (buscar_musicas dbBusca "ab").map (fun r => r.id) = [2, 1] :=
  ⟨C9_busca_substring_sem_curinga dbBusca "ab" (by decide), by decide⟩
